import Mathlib

/-!
Verification of the US-Economic-Dashboard scripts
(`economic_dashboard.py` and `economic_dashboard_dualAxis.py`).

The development shallowly embeds the two scripts:
- dates are encoded as `year * 10000 + month * 100 + day`, an order-preserving
  encoding of calendar dates;
- numeric cell values are rationals (`ℚ`); a possibly-missing cell (pandas `NaN`)
  is an `Option ℚ` with `none` for missing;
- the raw table fetched from FRED is a `List Row`; `load_economic_data` cleans it
  and overwrites the Inflation column, producing a `List CleanRow`;
- a plotly figure is a `Figure` record of traces, shading rectangles and layout;
- pandas operations that raise (`.iloc[-1]` / `index[-1]` on an empty frame) are
  embedded as `Option`-returning lookups, `none` modelling the raised error.
-/

namespace EconDashboard

/-- Calendar date encoded as `y * 10000 + m * 100 + d`; for valid dates this
encoding is strictly monotone in the calendar order, so date comparisons in the
scripts become `Nat` comparisons. -/
def mkDate (y m d : Nat) : Nat := y * 10000 + m * 100 + d

/-- One row of the raw table returned by `web.DataReader` for the four FRED
series; each cell may be missing (`none` = pandas `NaN`). -/
structure Row where
  date : Nat
  gfdebtn : Option ℚ
  fedfunds : Option ℚ
  gdp : Option ℚ
  cpiaucsl : Option ℚ
deriving DecidableEq, Repr

/-- A row after forward-fill and `dropna()`: all four cells present.  Columns
already carry the logical names given by the rename step (`data.columns =
list(indicators.keys())`); `cpi` is the still-raw CPIAUCSL level that the
Inflation overwrite consumes. -/
structure FilledRow where
  date : Nat
  nationalDebt : ℚ
  fedFundsRate : ℚ
  gdp : ℚ
  cpi : ℚ
deriving DecidableEq, Repr, Inhabited

/-- A row of the Observation Table returned by `load_economic_data`: the
Inflation column has been overwritten by `pct_change(periods=12) * 100`, so it
is again possibly missing (`none` on the first 12 rows). -/
structure CleanRow where
  date : Nat
  nationalDebt : ℚ
  fedFundsRate : ℚ
  gdp : ℚ
  inflation : Option ℚ
deriving DecidableEq, Repr, Inhabited

/-- `DataFrame.ffill()` restricted to the four value columns: each column is
forward-filled independently; the four accumulators hold the last seen value of
each column (initially `none`). -/
def ffillAux : Option ℚ → Option ℚ → Option ℚ → Option ℚ → List Row → List Row
  | _, _, _, _, [] => []
  | a, b, c, d, r :: rs =>
    let a' := r.gfdebtn <|> a
    let b' := r.fedfunds <|> b
    let c' := r.gdp <|> c
    let d' := r.cpiaucsl <|> d
    { r with gfdebtn := a', fedfunds := b', gdp := c', cpiaucsl := d' } ::
      ffillAux a' b' c' d' rs

/-- `data.ffill()` (line 38 of `economic_dashboard.py`, line 39 of the dual-axis
variant). -/
def ffill (rs : List Row) : List Row := ffillAux none none none none rs

/-- The per-row test of `dropna()`: keep the row iff all four cells are present,
simultaneously applying the positional column rename. -/
def dropnaRow (r : Row) : Option FilledRow :=
  match r.gfdebtn, r.fedfunds, r.gdp, r.cpiaucsl with
  | some a, some b, some c, some d => some ⟨r.date, a, b, c, d⟩
  | _, _, _, _ => none

/-- `.dropna()` composed with the column rename (`data.columns = ...`). -/
def dropna (rs : List Row) : List FilledRow := rs.filterMap dropnaRow

/-- pandas `Series.pct_change(periods=12)` on a column with no missing values:
element `t` is `x[t] / x[t-12] - 1` for `t ≥ 12` and `NaN` (here `none`) for
`t < 12`. -/
def pct_change12 (xs : List ℚ) : List (Option ℚ) :=
  (List.range xs.length).map fun t =>
    if 12 ≤ t then some (xs.getD t 0 / xs.getD (t - 12) 0 - 1) else none

/-- Reassembly of a cleaned row with the overwritten Inflation cell
(`data['Inflation'] = ...`). -/
def combineRow (r : FilledRow) (i : Option ℚ) : CleanRow :=
  ⟨r.date, r.nationalDebt, r.fedFundsRate, r.gdp, i⟩

/-- `load_economic_data` (lines 26-41 of `economic_dashboard.py`, identical in
the dual-axis variant), as a function of the raw fetched table:
forward-fill, drop incomplete rows, rename columns, then overwrite the
Inflation column with its trailing-12-period percent change times 100. -/
def load_economic_data (raw : List Row) : List CleanRow :=
  let cleaned := dropna (ffill raw)
  List.zipWith combineRow cleaned
    ((pct_change12 (cleaned.map FilledRow.cpi)).map (Option.map (· * 100)))

/-- One `go.Scatter` trace: x data, y data (the Inflation column may contain
missing values, others are wrapped with `some`), trace name, line color, line
width, optional dash style, and the y-axis the trace is attached to. -/
structure Trace where
  x : List Nat
  y : List (Option ℚ)
  name : String
  color : String
  width : Nat
  dash : Option String
  yaxis : String
deriving DecidableEq, Repr

/-- One `fig.add_vrect` shading band. -/
structure VRect where
  x0 : Nat
  x1 : Nat
  fillcolor : String
  opacity : ℚ
  lineWidth : Nat
deriving DecidableEq, Repr

/-- The `fig.update_layout(...)` configuration, field for field. -/
structure Layout where
  title : String
  xaxisTitle : String
  yaxisTitleText : String
  yaxisTitleColor : String
  yaxisTickColor : String
  yaxisSide : String
  yaxis2TitleText : String
  yaxis2TitleColor : String
  yaxis2TickColor : String
  yaxis2Overlaying : String
  yaxis2Side : String
  hovermode : String
  legendOrient : String
  legendYAnchor : String
  legendY : ℚ
  legendXAnchor : String
  legendX : ℚ
  height : Nat
  marginL : Nat
  marginR : Nat
  marginT : Nat
  marginB : Nat
deriving DecidableEq, Repr

/-- A plotly figure: the chart specification object both renderers return. -/
structure Figure where
  traces : List Trace
  vrects : List VRect
  layout : Layout
deriving DecidableEq, Repr

/-- The hard-coded recession interval list (7 bands, identical in both
scripts). -/
def recessions : List (Nat × Nat) :=
  [ (mkDate 1973 11 1, mkDate 1975 3 1)
  , (mkDate 1980 1 1, mkDate 1980 7 1)
  , (mkDate 1981 7 1, mkDate 1982 11 1)
  , (mkDate 1990 7 1, mkDate 1991 3 1)
  , (mkDate 2001 3 1, mkDate 2001 11 1)
  , (mkDate 2007 12 1, mkDate 2009 6 1)
  , (mkDate 2020 2 1, mkDate 2020 4 1) ]

/-- The `update_layout` arguments, identical in both scripts. -/
def layoutConfig : Layout :=
  { title := "US Economic Indicators (1970-Present)"
  , xaxisTitle := "Year"
  , yaxisTitleText := "Debt & GDP (Billions $)"
  , yaxisTitleColor := "royalblue"
  , yaxisTickColor := "royalblue"
  , yaxisSide := "left"
  , yaxis2TitleText := "Interest & Inflation (%)"
  , yaxis2TitleColor := "crimson"
  , yaxis2TickColor := "crimson"
  , yaxis2Overlaying := "y"
  , yaxis2Side := "right"
  , hovermode := "x unified"
  , legendOrient := "h"
  , legendYAnchor := "bottom"
  , legendY := 102 / 100
  , legendXAnchor := "right"
  , legendX := 1
  , height := 600
  , marginL := 50
  , marginR := 50
  , marginT := 80
  , marginB := 50 }

/-- The figure built by `create_combined_chart` (`economic_dashboard.py` lines
49-126) and by the body of `create_animated_chart` (`economic_dashboard_dualAxis.py`
lines 54-131); the two bodies are textually identical.  Note that every trace
uses the FULL table (`x=data.index, y=data[...]`): the `end_date` parameter of
the animated variant is never consulted when the traces are built. -/
def buildFigure (data : List CleanRow) : Figure :=
  { traces :=
      [ ⟨data.map CleanRow.date, data.map (fun r => some r.nationalDebt),
         "National Debt", "royalblue", 2, none, "y1"⟩
      , ⟨data.map CleanRow.date, data.map (fun r => some r.gdp),
         "GDP", "forestgreen", 2, some "dot", "y1"⟩
      , ⟨data.map CleanRow.date, data.map (fun r => some r.fedFundsRate),
         "Fed Funds Rate", "crimson", 2, none, "y2"⟩
      , ⟨data.map CleanRow.date, data.map CleanRow.inflation,
         "Inflation", "darkorange", 2, none, "y2"⟩ ]
  , vrects := recessions.map fun rec => ⟨rec.1, rec.2, "gray", 1 / 5, 0⟩
  , layout := layoutConfig }

/-- `create_combined_chart(data)` (`economic_dashboard.py` lines 49-126). -/
def create_combined_chart (data : List CleanRow) : Figure := buildFigure data

/-- `create_animated_chart(data, end_date=None)`
(`economic_dashboard_dualAxis.py` lines 50-131).  When `end_date` is omitted the
source evaluates `data.index[-1]`, which raises `IndexError` on an empty table;
this is the `none` result.  The bound default — like an explicitly passed
`end_date` — is never used afterwards: the figure is always `buildFigure data`. -/
def create_animated_chart (data : List CleanRow) (end_date : Option Nat) :
    Option Figure :=
  match end_date with
  | none =>
    match (data.map CleanRow.date).getLast? with
    | none => none
    | some _ => some (buildFigure data)
  | some _ => some (buildFigure data)

/-- `step = max(1, len(dates) // (50 * animation_speed))`
(`economic_dashboard_dualAxis.py` line 170); `n` is the number of
quarterly-spaced dates, `speed` the slider value. -/
def step (n speed : Nat) : Nat := max 1 (n / (50 * speed))

/-- Number of frames the loop visits: the length of `dates[::step]`, i.e.
`⌈n / step⌉`. -/
def numFrames (n speed : Nat) : Nat :=
  (n + step n speed - 1) / step n speed

/-- The successive values written to the progress bar: for each frame index `i`
the loop writes `min(100, int(i * step / len(dates) * 100))` (line 197; `int`
of a nonnegative value truncates, i.e. `Nat` division), and after the loop the
completion step writes `100` (line 223). -/
def progressWrites (n speed : Nat) : List Nat :=
  ((List.range (numFrames n speed)).map fun i =>
    min 100 (i * step n speed * 100 / n)) ++ [100]

/-- Year component of an encoded date (`data.index.year`). -/
def yearOf (d : Nat) : Nat := d / 10000

/-- `filtered_data = data[(data.index.year >= lo) & (data.index.year <= hi)]`
(`economic_dashboard.py` line 159). -/
def filtered_data (data : List CleanRow) (lo hi : Nat) : List CleanRow :=
  data.filter fun r => lo ≤ yearOf r.date ∧ yearOf r.date ≤ hi

/-- The four current-value metrics (`economic_dashboard.py` lines 162-165),
each reading `filtered_data[col].iloc[-1]`; `.iloc[-1]` raises `IndexError` on
an empty frame, embedded as the `none` result. -/
def display_metrics (data : List CleanRow) (lo hi : Nat) :
    Option (ℚ × ℚ × ℚ × Option ℚ) :=
  (filtered_data data lo hi).getLast?.map fun r =>
    (r.nationalDebt, r.fedFundsRate, r.gdp, r.inflation)

/-- A small concrete Observation Table used to instantiate theorems: two
monthly rows. -/
def sampleTable : List CleanRow :=
  [ ⟨mkDate 1970 1 1, 100, 5, 200, none⟩
  , ⟨mkDate 1970 2 1, 110, 6, 210, none⟩ ]

/-- A raw fetched table of one complete row. -/
def sampleRaw1 : List Row :=
  [⟨mkDate 1970 1 1, some 7, some 5, some 9, some 3⟩]

/-- A raw fetched table of 13 complete rows with strictly increasing dates;
cell values in row `i` are `i + 1`. -/
def sampleRaw13 : List Row :=
  [ ⟨mkDate 1970 1 1, some 1, some 1, some 1, some 1⟩
  , ⟨mkDate 1971 1 1, some 2, some 2, some 2, some 2⟩
  , ⟨mkDate 1972 1 1, some 3, some 3, some 3, some 3⟩
  , ⟨mkDate 1973 1 1, some 4, some 4, some 4, some 4⟩
  , ⟨mkDate 1974 1 1, some 5, some 5, some 5, some 5⟩
  , ⟨mkDate 1975 1 1, some 6, some 6, some 6, some 6⟩
  , ⟨mkDate 1976 1 1, some 7, some 7, some 7, some 7⟩
  , ⟨mkDate 1977 1 1, some 8, some 8, some 8, some 8⟩
  , ⟨mkDate 1978 1 1, some 9, some 9, some 9, some 9⟩
  , ⟨mkDate 1979 1 1, some 10, some 10, some 10, some 10⟩
  , ⟨mkDate 1980 1 1, some 11, some 11, some 11, some 11⟩
  , ⟨mkDate 1981 1 1, some 12, some 12, some 12, some 12⟩
  , ⟨mkDate 1982 1 1, some 13, some 13, some 13, some 13⟩ ]

section PipelineLemmas

/-- Forward-fill does not touch the date index. -/
theorem ffillAux_map_date (a b c d : Option ℚ) (rs : List Row) :
    (ffillAux a b c d rs).map Row.date = rs.map Row.date := by
  induction rs generalizing a b c d with
  | nil => rfl
  | cons r rs ih => simp [ffillAux, ih]

/-- `ffill` does not touch the date index. -/
theorem ffill_map_date (rs : List Row) :
    (ffill rs).map Row.date = rs.map Row.date :=
  ffillAux_map_date none none none none rs

/-- A kept row keeps its date. -/
theorem dropnaRow_date {r : Row} {fr : FilledRow} (h : dropnaRow r = some fr) :
    fr.date = r.date := by
  unfold dropnaRow at h
  split at h
  · cases h; rfl
  · exact absurd h (by simp)

/-- The dates surviving `dropna` form a sublist of the original dates. -/
theorem dropna_map_date_sublist (rs : List Row) :
    ((dropna rs).map FilledRow.date).Sublist (rs.map Row.date) := by
  induction rs with
  | nil => simp [dropna]
  | cons r rs ih =>
    rw [dropna, List.filterMap_cons]
    cases h : dropnaRow r with
    | none => exact List.Sublist.cons r.date ih
    | some fr =>
      simp only [List.map_cons]
      rw [dropnaRow_date h]
      exact List.Sublist.cons₂ r.date ih

/-- `pct_change12` preserves the column length. -/
theorem pct_change12_length (xs : List ℚ) :
    (pct_change12 xs).length = xs.length := by
  simp [pct_change12]

/-- Element `t` of `pct_change12`. -/
theorem pct_change12_getD (xs : List ℚ) (t : Nat) (h : t < xs.length) :
    (pct_change12 xs).getD t none =
      if 12 ≤ t then some (xs.getD t 0 / xs.getD (t - 12) 0 - 1) else none := by
  unfold pct_change12
  rw [List.getD_eq_getElem?_getD, List.getElem?_map, List.getElem?_range h]
  rfl

/-- Zipping the cleaned rows with the inflation column keeps the dates of the
cleaned rows, provided the inflation column is long enough. -/
theorem zipWith_combine_map_date :
    ∀ (as : List FilledRow) (bs : List (Option ℚ)), as.length ≤ bs.length →
      (List.zipWith combineRow as bs).map CleanRow.date = as.map FilledRow.date
  | [], _, _ => by simp
  | a :: as, b :: bs, h => by
    simpa [combineRow] using
      zipWith_combine_map_date as bs (Nat.le_of_succ_le_succ h)

/-- Element `t` of the zip of cleaned rows and inflation column. -/
theorem zipWith_combine_getD :
    ∀ (as : List FilledRow) (bs : List (Option ℚ)) (t : Nat),
      t < as.length → t < bs.length →
      (List.zipWith combineRow as bs).getD t default =
        combineRow (as.getD t default) (bs.getD t none)
  | a :: as, b :: bs, 0, _, _ => by simp
  | a :: as, b :: bs, t + 1, ha, hb => by
    simpa using zipWith_combine_getD as bs t
      (Nat.lt_of_succ_lt_succ ha) (Nat.lt_of_succ_lt_succ hb)

/-- `load_economic_data` keeps one output row per cleaned row: the undefined
head rows of the Inflation series remain in the table. -/
theorem load_length (raw : List Row) :
    (load_economic_data raw).length = (dropna (ffill raw)).length := by
  simp [load_economic_data, pct_change12_length]

/-- The date index of the Observation Table is the date index of the cleaned
rows. -/
theorem load_map_date (raw : List Row) :
    (load_economic_data raw).map CleanRow.date =
      (dropna (ffill raw)).map FilledRow.date := by
  unfold load_economic_data
  exact zipWith_combine_map_date _ _ (by simp [pct_change12_length])

/-- Mapping a function over an optional-valued column commutes with the
default-`none` lookup. -/
theorem getD_map_optionMap (f : ℚ → ℚ) (bs : List (Option ℚ)) :
    ∀ t : Nat, (bs.map (Option.map f)).getD t none =
      Option.map f (bs.getD t none) := by
  induction bs with
  | nil => intro t; simp
  | cons b bs ih =>
    intro t
    cases t with
    | zero => simp
    | succ n => rw [List.map_cons, List.getD_cons_succ, List.getD_cons_succ]; exact ih n

/-- The Inflation cell of output row `t`, in closed form. -/
theorem load_getD_inflation (raw : List Row) (t : Nat)
    (h : t < (load_economic_data raw).length) :
    ((load_economic_data raw).getD t default).inflation =
      if 12 ≤ t then
        some ((((dropna (ffill raw)).map FilledRow.cpi).getD t 0 /
               ((dropna (ffill raw)).map FilledRow.cpi).getD (t - 12) 0 - 1) * 100)
      else none := by
  have hlen : t < (dropna (ffill raw)).length := load_length raw ▸ h
  have hlen' : t < ((dropna (ffill raw)).map FilledRow.cpi).length := by
    simpa using hlen
  unfold load_economic_data
  rw [zipWith_combine_getD _ _ t hlen (by simpa [pct_change12_length] using hlen)]
  rw [getD_map_optionMap, pct_change12_getD _ t hlen']
  by_cases h12 : 12 ≤ t <;> simp [h12, combineRow]

end PipelineLemmas

/-- Claim C1 (code bug, divergence witness): the spec requires the trace data of
`create_animated_chart(data, end_date)` to be truncated to rows with date ≤
cutoff, but the source never consults `end_date` after binding it.  At a 2-row
table with cutoff equal to the first date, every one of the 4 traces still
carries both rows — including the row dated after the cutoff. -/
theorem create_animated_chart_ignores_cutoff :
    create_animated_chart sampleTable (some (mkDate 1970 1 1)) =
      some (buildFigure sampleTable) ∧
    (buildFigure sampleTable).traces.map Trace.x =
      List.replicate 4 [mkDate 1970 1 1, mkDate 1970 2 1] ∧
    ¬ ∀ tr ∈ (buildFigure sampleTable).traces, ∀ d ∈ tr.x, d ≤ mkDate 1970 1 1 :=
  ⟨rfl, by decide, by decide⟩

/-- Claim C2 counterexample: a valid 1-row raw table (strictly increasing
dates) produces an Observation Table whose Inflation cell is missing, refuting
"no missing cells in any column (including the Inflation column)". -/
theorem load_inflation_missing_cell :
    (sampleRaw1.map Row.date).Pairwise (fun a b => a < b) ∧
    (load_economic_data sampleRaw1).length = 1 ∧
    ((load_economic_data sampleRaw1).getD 0 default).inflation = none := by
  decide

/-- Claim C2 (amended): for every raw table with strictly increasing dates, the
Observation Table has strictly increasing (hence duplicate-free) dates; the
National Debt, Fed Funds Rate and GDP columns are total by construction; the
Inflation column is present exactly on row indices `t ≥ 12` (missing on the
first 12 rows). -/
theorem load_table_invariants (raw : List Row)
    (hdates : (raw.map Row.date).Pairwise (fun a b => a < b)) :
    ((load_economic_data raw).map CleanRow.date).Pairwise (fun a b => a < b) ∧
    ∀ t, t < (load_economic_data raw).length →
      (((load_economic_data raw).getD t default).inflation.isSome ↔ 12 ≤ t) := by
  constructor
  · rw [load_map_date]
    exact List.Pairwise.sublist (dropna_map_date_sublist (ffill raw))
      (by rw [ffill_map_date]; exact hdates)
  · intro t ht
    rw [load_getD_inflation raw t ht]
    by_cases h12 : 12 ≤ t <;> simp [h12]

/-- Witness for the amended C2 at the concrete 13-row raw table. -/
theorem load_table_invariants_witness :
    (sampleRaw13.map Row.date).Pairwise (fun a b => a < b) ∧
    ((load_economic_data sampleRaw13).map CleanRow.date).Pairwise (fun a b => a < b) ∧
    12 < (load_economic_data sampleRaw13).length ∧
    (((load_economic_data sampleRaw13).getD 12 default).inflation.isSome ↔ 12 ≤ 12) := by
  have hd : (sampleRaw13.map Row.date).Pairwise (fun a b => a < b) := by decide
  have h := load_table_invariants sampleRaw13 hd
  exact ⟨hd, h.1, by decide, h.2 12 (by decide)⟩

/-- Claim C3: the Observation Table keeps one row per cleaned row (the
undefined head rows remain), and the Inflation cell of row `t` equals
`(raw[t] / raw[t-12] - 1) * 100` for `t ≥ 12` — `raw` being the forward-filled,
row-dropped CPIAUCSL column — and is missing for `t < 12`. -/
theorem load_inflation_formula (raw : List Row) :
    (load_economic_data raw).length = (dropna (ffill raw)).length ∧
    ∀ t, t < (load_economic_data raw).length →
      ((load_economic_data raw).getD t default).inflation =
        if 12 ≤ t then
          some ((((dropna (ffill raw)).map FilledRow.cpi).getD t 0 /
                 ((dropna (ffill raw)).map FilledRow.cpi).getD (t - 12) 0 - 1) * 100)
        else none :=
  ⟨load_length raw, fun t ht => load_getD_inflation raw t ht⟩

/-- Witness for C3 at the concrete 13-row raw table, at `t = 12`:
`(13 / 1 - 1) * 100`. -/
theorem load_inflation_formula_witness :
    12 < (load_economic_data sampleRaw13).length ∧
    ((load_economic_data sampleRaw13).getD 12 default).inflation =
      some ((13 / 1 - 1) * 100) := by
  refine ⟨by decide, ?_⟩
  have h := (load_inflation_formula sampleRaw13).2 12 (by decide)
  rw [h]
  have h1 : ((dropna (ffill sampleRaw13)).map FilledRow.cpi).getD 12 0 = 13 := by
    decide
  have h2 : ((dropna (ffill sampleRaw13)).map FilledRow.cpi).getD (12 - 12) 0 = 1 := by
    decide
  rw [if_pos (by decide : (12 : Nat) ≤ 12), h1, h2]

/-- Claim C4 (code bug, divergence witness): with a cutoff strictly earlier
than every observation the renderer does return a figure without failing, but —
because the source never applies the cutoff — its 4 trace series carry the full
table instead of being empty. -/
theorem create_animated_chart_early_cutoff_not_empty :
    create_animated_chart sampleTable (some (mkDate 1969 1 1)) =
      some (buildFigure sampleTable) ∧
    (∀ r ∈ sampleTable, mkDate 1969 1 1 < r.date) ∧
    (buildFigure sampleTable).traces.map (fun tr => tr.y.length) = [2, 2, 2, 2] :=
  ⟨rfl, by decide, by decide⟩

/-- Claim C5 (code bug, divergence witness): a year-range filter selecting zero
rows makes every `filtered_data[...].iloc[-1]` metric lookup fail (`none`
models the `IndexError` pandas raises), rather than degrading to an empty-but-
valid display. -/
theorem display_metrics_empty_filter_fails :
    filtered_data sampleTable 1980 1980 = [] ∧
    display_metrics sampleTable 1980 1980 = none := by
  decide

/-- Claim C6 counterexample: at `totalFrames = 1000`, raising the speed from 1
to 10 shrinks the stride from 20 to 2 and grows the subsampled frame count from
50 to 500 — higher speed yields MORE, FINER frames, refuting "fewer, coarser
frames". -/
theorem step_more_frames_at_higher_speed :
    step 1000 10 < step 1000 1 ∧ numFrames 1000 1 < numFrames 1000 10 := by
  decide

/-- Claim C6 (amended): the stride equals `max(1, totalFrames / (50 * speed))`
(floor division) and is always at least 1; higher speed yields a stride no
larger — hence at least as many, finer frames — in addition to the shorter
`0.5 / speed` inter-frame delay. -/
theorem step_formula_monotone (n s s' : Nat) (hs : 1 ≤ s) (hss' : s ≤ s') :
    step n s = max 1 (n / (50 * s)) ∧ 1 ≤ step n s ∧ step n s' ≤ step n s := by
  refine ⟨rfl, le_max_left _ _, ?_⟩
  exact max_le_max le_rfl
    (Nat.div_le_div_left (Nat.mul_le_mul_left 50 hss') (Nat.mul_pos (by decide) hs))

/-- Witness for the amended C6 at `n = 1000`, `s = 2`, `s' = 5`. -/
theorem step_formula_monotone_witness :
    ((1 : Nat) ≤ 2 ∧ (2 : Nat) ≤ 5) ∧
    (step 1000 2 = max 1 (1000 / (50 * 2)) ∧ 1 ≤ step 1000 2 ∧
      step 1000 5 ≤ step 1000 2) :=
  ⟨by decide, step_formula_monotone 1000 2 5 (by decide) (by decide)⟩

/-- Claim C7: across the whole run — the per-frame writes
`min(100, int(i * step / totalFrames * 100))` followed by the completion write —
the progress values are pairwise non-decreasing and the last value is
exactly 100. -/
theorem progress_monotone_complete (n speed : Nat) :
    (progressWrites n speed).Pairwise (fun a b => a ≤ b) ∧
    (progressWrites n speed).getLast? = some 100 := by
  constructor
  · unfold progressWrites
    rw [List.pairwise_append]
    refine ⟨?_, by simp, ?_⟩
    · exact List.Pairwise.map _
        (fun a b hab =>
          min_le_min le_rfl
            (Nat.div_le_div_right
              (Nat.mul_le_mul_right 100 (Nat.mul_le_mul_right _ (le_of_lt hab)))))
        (List.pairwise_lt_range _)
    · intro a ha b hb
      rw [List.mem_singleton] at hb
      subst hb
      rcases List.mem_map.1 ha with ⟨i, _, rfl⟩
      exact min_le_left _ _
  · unfold progressWrites
    exact List.getLast?_concat _

/-- Claim C8: both renderers are pure functions of their inputs — two
invocations on equal tables and equal optional cutoffs return equal chart
specification objects. -/
theorem renderers_deterministic (data1 data2 : List CleanRow) (c1 c2 : Option Nat)
    (hdata : data1 = data2) (hc : c1 = c2) :
    create_animated_chart data1 c1 = create_animated_chart data2 c2 ∧
    create_combined_chart data1 = create_combined_chart data2 := by
  subst hdata; subst hc; exact ⟨rfl, rfl⟩

/-- Witness for C8 at the concrete sample table. -/
theorem renderers_deterministic_witness :
    create_animated_chart sampleTable (some (mkDate 1980 1 1)) =
      create_animated_chart sampleTable (some (mkDate 1980 1 1)) ∧
    create_combined_chart sampleTable = create_combined_chart sampleTable :=
  renderers_deterministic sampleTable sampleTable
    (some (mkDate 1980 1 1)) (some (mkDate 1980 1 1)) rfl rfl

/-- Claim C9: whenever both the no-cutoff render and a cutoff render succeed,
they have identical recession shading (the 7 bands) and identical layout; only
the trace data may depend on the cutoff. -/
theorem cutoff_preserves_bands_layout (data : List CleanRow) (c : Nat)
    (fig0 fig1 : Figure)
    (h0 : create_animated_chart data none = some fig0)
    (h1 : create_animated_chart data (some c) = some fig1) :
    fig1.vrects = fig0.vrects ∧ fig1.vrects.length = 7 ∧
      fig1.layout = fig0.layout := by
  have hfig1 : fig1 = buildFigure data := by
    simpa [create_animated_chart] using h1.symm
  have hfig0 : fig0 = buildFigure data := by
    unfold create_animated_chart at h0
    cases hl : (data.map CleanRow.date).getLast? with
    | none => rw [hl] at h0; exact absurd h0 (by simp)
    | some d => rw [hl] at h0; simpa using h0.symm
  subst hfig0; subst hfig1
  refine ⟨rfl, ?_, rfl⟩
  simp [buildFigure, recessions]

/-- Witness for C9 at the concrete sample table with cutoff 1975-01-01. -/
theorem cutoff_preserves_bands_layout_witness :
    create_animated_chart sampleTable none = some (buildFigure sampleTable) ∧
    create_animated_chart sampleTable (some (mkDate 1975 1 1)) =
      some (buildFigure sampleTable) ∧
    ((buildFigure sampleTable).vrects = (buildFigure sampleTable).vrects ∧
     (buildFigure sampleTable).vrects.length = 7 ∧
     (buildFigure sampleTable).layout = (buildFigure sampleTable).layout) :=
  ⟨rfl, rfl,
    cutoff_preserves_bands_layout sampleTable (mkDate 1975 1 1) _ _ rfl rfl⟩

/-- Claim C10: with the cutoff omitted, the renderer indexes the last row of
the date index; it fails (`none`, modelling the `IndexError`) exactly on the
empty table, and on a non-empty table the no-cutoff render coincides with the
render at the last observation date. -/
theorem no_cutoff_needs_nonempty (data : List CleanRow) :
    (create_animated_chart data none = none ↔ data = []) ∧
    ∀ r, data.getLast? = some r →
      create_animated_chart data none = create_animated_chart data (some r.date) := by
  constructor
  · constructor
    · intro h
      unfold create_animated_chart at h
      cases hl : (data.map CleanRow.date).getLast? with
      | none =>
        have hnil : data.map CleanRow.date = [] := by
          rwa [List.getLast?_eq_none_iff] at hl
        simpa using hnil
      | some d => rw [hl] at h; simp at h
    · intro h; subst h; rfl
  · intro r hr
    unfold create_animated_chart
    have hl : (data.map CleanRow.date).getLast? = some r.date := by
      rw [List.getLast?_map, hr]; rfl
    rw [hl]

/-- Witness for C10 at the concrete sample table, whose last row is dated
1970-02-01. -/
theorem no_cutoff_needs_nonempty_witness :
    (create_animated_chart sampleTable none = none ↔ sampleTable = []) ∧
    create_animated_chart sampleTable none =
      create_animated_chart sampleTable (some (mkDate 1970 2 1)) := by
  have h := no_cutoff_needs_nonempty sampleTable
  refine ⟨h.1, ?_⟩
  exact h.2 ⟨mkDate 1970 2 1, 110, 6, 210, none⟩ (by decide)

end EconDashboard
